import Mathlib

/-!
Verification of the data model in `orders/my_diplom/models.py`: a shallow
embedding of the Django models and their persistence logic (user manager,
email-confirmation tokens, catalog rows with composite unique constraints,
orders and order items), followed by theorems settling the claims about it.

Conventions of the embedding:
- Django model instances become Lean structures; `PositiveIntegerField`
  becomes `Nat`, `CharField` becomes `String`, nullable fields become
  `Option`.
- A database table becomes a `List` of rows; an INSERT guarded by a declared
  `UniqueConstraint` becomes an `Except`-valued function that fails with a
  constraint-violation error when a row with the same key pair already
  exists, and otherwise appends the row (the relational store checks the
  constraint atomically: on failure the table is unchanged).
- Keyword arguments that may be absent (`**extra_fields`, omitted columns)
  become `Option` parameters; Django applies the declared field default when
  the caller omits the field.
- Externally generated data (the random token key from
  `django_rest_passwordreset`) is passed in as an explicit argument.
-/

/-- `USER_TYPE_CHOICES` from models.py lines 8-12. -/
def USER_TYPE_CHOICES : List (String × String) :=
  [("shop", "Магазин"), ("buyer", "Покупатель")]

/-- `STATUS_CHOICES` from models.py lines 16-24. -/
def STATUS_CHOICES : List (String × String) :=
  [("basket", "Статус корзины"),
   ("new", "Новый"),
   ("confirmed", "Подтвержден"),
   ("assembled", "Собран"),
   ("sent", "Отправлен"),
   ("delivered", "Доставлен"),
   ("canceled", "Отменен")]

/-- The `User` model (models.py lines 62-81): unique email identity, Django
`AbstractUser` boolean flags, and the role tag `type` whose declared field
default is `"buyer"` (line 70).  `password` stores the credential set by
`set_password`; the hash function itself is Django auth plumbing outside this
data layer and none of the claims depend on its value. -/
structure User where
  email : String
  password : String
  is_staff : Bool
  is_superuser : Bool
  type : String
  organization : Option String
  position : Option String
deriving Repr, DecidableEq

/-- Python `str.strip()`: drop leading and trailing whitespace
characters. -/
def pyStrip (s : String) : String :=
  ⟨((s.data.dropWhile Char.isWhitespace).reverse.dropWhile Char.isWhitespace).reverse⟩

/-- Splits a character list at the LAST occurrence of `c`, like Python
`s.rsplit(c, 1)`; `none` when `c` does not occur (there Python raises
`ValueError` on unpacking). -/
def splitAtLast (c : Char) : List Char → Option (List Char × List Char)
  | [] => none
  | a :: t =>
    match splitAtLast c t with
    | some (front, back) => some (a :: front, back)
    | none => if a = c then some ([], t) else none

/-- `BaseUserManager.normalize_email` from django.contrib.auth.base_user,
which `UserManager._create_user` (models.py line 39) calls: strip the email,
split at the last `@`, and lowercase the domain part; an email with no `@`
is returned unchanged. -/
def normalize_email (email : String) : String :=
  match splitAtLast '@' (pyStrip email).data with
  | none => email
  | some (name, domain) => ⟨name ++ '@' :: domain.map Char.toLower⟩

/-- Errors surfaced synchronously by the data layer: `ValueError` raised in
the manager, and the unique-constraint violation raised by the store. -/
inductive DbError
  | emptyEmail
  | staffFlagNotTrue
  | superuserFlagNotTrue
  | uniqueViolation
deriving Repr, DecidableEq

/-- Lookup of a user by email, the retrieval path for the unique
`USERNAME_FIELD = email` (models.py lines 67, 72). -/
def get_user_by_email (db : List User) (e : String) : Option User :=
  db.find? (fun u => u.email == e)

namespace UserManager

/-- `user = self.model(email=email, **extra_fields)` (models.py line 40),
with `set_password` applied: the model instance with every extra field the
caller omitted resolved to its declared field default (`is_staff=False` and
`is_superuser=False` from `AbstractUser`, `type="buyer"` from line 70). -/
def build_user (email password : String)
    (is_staff is_superuser : Option Bool) (utype : Option String) : User :=
  { email := email
    password := password
    is_staff := is_staff.getD false
    is_superuser := is_superuser.getD false
    type := utype.getD "buyer"
    organization := none
    position := none }

/-- `UserManager._create_user` (models.py lines 33-43): reject an empty
email, normalize it, build the model instance, and save it; the save
enforces `unique=True` on email (line 67). -/
def _create_user (db : List User) (email password : String)
    (is_staff is_superuser : Option Bool) (utype : Option String) :
    Except DbError (User × List User) :=
  if email = "" then
    .error .emptyEmail
  else if db.any (fun v => v.email == normalize_email email) then
    .error .uniqueViolation
  else
    .ok (build_user (normalize_email email) password is_staff is_superuser utype,
         db ++ [build_user (normalize_email email) password is_staff is_superuser utype])

/-- `UserManager.create_user` (models.py lines 45-48): default the staff and
superuser flags to `False` when the caller did not supply them, then
delegate. -/
def create_user (db : List User) (email password : String)
    (is_staff is_superuser : Option Bool) (utype : Option String) :
    Except DbError (User × List User) :=
  _create_user db email password
    (some (is_staff.getD false)) (some (is_superuser.getD false)) utype

/-- `UserManager.create_superuser` (models.py lines 50-59): default both
flags to `True`, then raise `ValueError` when either resulting flag is not
`True`, else delegate. -/
def create_superuser (db : List User) (email password : String)
    (is_staff is_superuser : Option Bool) (utype : Option String) :
    Except DbError (User × List User) :=
  if is_staff.getD true ≠ true then
    .error .staffFlagNotTrue
  else if is_superuser.getD true ≠ true then
    .error .superuserFlagNotTrue
  else
    _create_user db email password
      (some (is_staff.getD true)) (some (is_superuser.getD true)) utype

end UserManager

/-- The `ConfirmEmailToken` model (models.py lines 84-116): one owning user
(FK with CASCADE), and a `key` column that is unique and indexed. -/
structure ConfirmEmailToken where
  id : Nat
  user_id : Nat
  key : String
deriving Repr, DecidableEq

/-- `ConfirmEmailToken.save` (models.py lines 111-114): when the key is
falsy (the empty string) fill it with a freshly generated one, then persist.
`generate_key` delegates to the external `django_rest_passwordreset`
generator, so the generated value arrives here as the explicit argument
`generated`. -/
def ConfirmEmailToken.save (t : ConfirmEmailToken) (generated : String) :
    ConfirmEmailToken :=
  if t.key = "" then { t with key := generated } else t

/-- The `Contact` model (models.py lines 118-133): belongs to one user, FK
with CASCADE delete. -/
structure Contact where
  id : Nat
  user_id : Nat
  city : String
  street : String
  house : String
  apartment : String
  email : String
  phone : String
  work_phone : String
deriving Repr, DecidableEq

/-- A row of the `ProductInfo` model (models.py lines 176-192): a per-shop
listing with a declared `UniqueConstraint` on `(product, shop)`
(line 189). -/
structure ProductInfo where
  id : Nat
  model : String
  quantity : Nat
  price : Nat
  price_rrc : Nat
  product_id : Nat
  shop_id : Nat
deriving Repr, DecidableEq

/-- A row of the `ProductParameter` model (models.py lines 206-220): a value
per `(product_info, parameter)` pair with a declared `UniqueConstraint` on
that pair (line 217). -/
structure ProductParameter where
  id : Nat
  product_info_id : Nat
  parameter_id : Nat
  value : String
deriving Repr, DecidableEq

/-- A row of the `Order` model (models.py lines 223-236): owner FK, optional
contact FK, and a `status` CharField with `choices=STATUS_CHOICES` and NO
declared default (line 229). -/
structure Order where
  id : Nat
  user_id : Nat
  contact_id : Option Nat
  status : String
deriving Repr, DecidableEq

/-- Constructing an `Order` instance: a column the caller omits takes the
declared field default; the `status` CharField declares no default
(models.py line 229), so Django `Field.get_default` yields the empty string
for an omitted status (`choices` constrains nothing at this layer). -/
def Order.create (id user_id : Nat) (contact_id : Option Nat)
    (status : Option String) : Order :=
  { id := id
    user_id := user_id
    contact_id := contact_id
    status := status.getD "" }

/-- Assigning `order.status` and saving: the `Order` model overrides no
`save` and declares no transition guard, so the write is an unconditional
field update. -/
def Order.set_status (o : Order) (s : String) : Order :=
  { o with status := s }

/-- The seven declared order statuses (models.py lines 16-24). -/
inductive OrderStatus
  | basket
  | new
  | confirmed
  | assembled
  | sent
  | delivered
  | canceled
deriving Repr, DecidableEq

/-- The stored string of each declared status. -/
def OrderStatus.value : OrderStatus → String
  | .basket => "basket"
  | .new => "new"
  | .confirmed => "confirmed"
  | .assembled => "assembled"
  | .sent => "sent"
  | .delivered => "delivered"
  | .canceled => "canceled"

/-- A row of the `OrderItem` model (models.py lines 239-259): line item of
an order, with a declared `UniqueConstraint` on `(order_id, product_info)`
(line 253) and a derived `total_amount` column. -/
structure OrderItem where
  order_id : Nat
  product_info_id : Nat
  quantity : Nat
  price : Nat
  total_amount : Nat
deriving Repr, DecidableEq

/-- `OrderItem.save` (models.py lines 257-259): unconditionally recompute
`total_amount = price * quantity`, then persist via `super().save`. -/
def OrderItem.save (item : OrderItem) : OrderItem :=
  { item with total_amount := item.price * item.quantity }

/-- INSERT into the `ProductInfo` table under the declared
`UniqueConstraint(fields=[product, shop], name=unique_product_info)`: a
duplicate `(product, shop)` pair fails the write and the table is unchanged;
otherwise the row is appended, the existing rows untouched. -/
def insert_product_info (tbl : List ProductInfo) (r : ProductInfo) :
    Except DbError (List ProductInfo) :=
  if tbl.any (fun x => x.product_id == r.product_id && x.shop_id == r.shop_id) then
    .error .uniqueViolation
  else
    .ok (tbl ++ [r])

/-- INSERT into the `ProductParameter` table under the declared
`UniqueConstraint(fields=[product_info, parameter],
name=unique_product_parameter)`. -/
def insert_product_parameter (tbl : List ProductParameter) (r : ProductParameter) :
    Except DbError (List ProductParameter) :=
  if tbl.any (fun x =>
      x.product_info_id == r.product_info_id && x.parameter_id == r.parameter_id) then
    .error .uniqueViolation
  else
    .ok (tbl ++ [r])

/-- INSERT into the `OrderItem` table: `OrderItem.save` first recomputes
`total_amount` (models.py line 258), then `super().save` performs the INSERT
under the declared `UniqueConstraint(fields=[order_id, product_info],
name=unique_order_item)`. -/
def insert_order_item (tbl : List OrderItem) (item : OrderItem) :
    Except DbError (List OrderItem) :=
  if tbl.any (fun x =>
      x.order_id == item.order_id && x.product_info_id == item.product_info_id) then
    .error .uniqueViolation
  else
    .ok (tbl ++ [OrderItem.save item])

/-- The relational store restricted to the tables that hang off `User`:
contacts, orders and confirmation tokens all declare
`on_delete=models.CASCADE` toward `User` (models.py lines 97, 120, 225), and
order items cascade from their order (line 241). -/
structure Db where
  users : List (Nat × User)
  contacts : List Contact
  orders : List Order
  tokens : List ConfirmEmailToken
  order_items : List OrderItem
deriving Repr, DecidableEq

/-- Deleting a user: the store honours every declared CASCADE, removing the
user row together with all contacts, orders and confirmation tokens of that
user, and transitively the order items of the removed orders; the delete is
total, never rejected. -/
def delete_user (db : Db) (uid : Nat) : Db :=
  { users := db.users.filter (fun u => u.1 != uid)
    contacts := db.contacts.filter (fun c => c.user_id != uid)
    orders := db.orders.filter (fun o => o.user_id != uid)
    tokens := db.tokens.filter (fun t => t.user_id != uid)
    order_items := db.order_items.filter (fun i =>
      !(db.orders.any (fun o => o.id == i.order_id && o.user_id == uid))) }

/-! ## Shared helper lemmas -/

/-- On the success path, `_create_user` returns the freshly built user with
the normalized email, the flag and role defaults resolved, appended behind
the untouched prior rows. -/
theorem create_user_core_ok (db : List User) (email password : String)
    (is_staff is_superuser : Option Bool) (utype : Option String)
    (u : User) (db' : List User)
    (h : UserManager._create_user db email password is_staff is_superuser utype
        = .ok (u, db')) :
    u.email = normalize_email email
    ∧ u.is_staff = is_staff.getD false
    ∧ u.is_superuser = is_superuser.getD false
    ∧ u.type = utype.getD "buyer"
    ∧ db' = db ++ [u] := by
  unfold UserManager._create_user at h
  split at h
  · exact absurd h (by simp)
  split at h
  · exact absurd h (by simp)
  rw [Except.ok.injEq, Prod.mk.injEq] at h
  obtain ⟨hu, hdb⟩ := h
  subst hu
  exact ⟨rfl, rfl, rfl, rfl, hdb.symm⟩

/-- `find?` skips a prefix on which the predicate is everywhere false. -/
theorem find_append_of_all_false {α : Type} (p : α → Bool) (l1 l2 : List α)
    (h : ∀ x ∈ l1, p x = false) : (l1 ++ l2).find? p = l2.find? p := by
  induction l1 with
  | nil => rfl
  | cons a t ih =>
      rw [List.cons_append, List.find?]
      rw [h a (List.mem_cons_self a t)]
      exact ih (fun x hx => h x (List.mem_cons_of_mem a hx))

/-! ## Claim theorems -/

/-- C1: for every OrderItem save, the stored `total_amount` equals
`price * quantity` after the save, for any non-negative integer price and
quantity, and the recomputation overwrites any caller-supplied
`total_amount` value. -/
theorem orderitem_save_total (item : OrderItem) (t : Nat) :
    (OrderItem.save item).total_amount = item.price * item.quantity
    ∧ OrderItem.save { item with total_amount := t } = OrderItem.save item :=
  ⟨rfl, rfl⟩

/-- C3 counterexample: an Order created without an explicitly supplied
status has status `""` (the Django CharField no-default value), not
`"basket"`. -/
theorem order_default_status_counterexample :
    (Order.create 1 1 none none).status = ""
    ∧ (Order.create 1 1 none none).status ≠ "basket" :=
  ⟨rfl, by decide⟩

/-- C3 (amended): the Order model declares no default for `status`, so an
Order created without an explicitly supplied status gets the empty string,
not `"basket"`; the `"basket"` initial state is a value callers must supply
explicitly, and is stored verbatim when they do. -/
theorem order_created_without_status_is_empty (id uid : Nat) (c : Option Nat) :
    (Order.create id uid c none).status = ""
    ∧ (∀ s : String, (Order.create id uid c (some s)).status = s)
    ∧ "basket" ∈ STATUS_CHOICES.map Prod.fst :=
  ⟨rfl, fun _ => rfl, by decide⟩

/-- C6: deleting any user removes, besides the user row itself, every
Contact row, Order row and ConfirmEmailToken row of that user — the
declared CASCADEs — and the delete is a total operation, never rejected. -/
theorem delete_user_cascades (db : Db) (uid : Nat) :
    (delete_user db uid).contacts.all (fun c => c.user_id != uid) = true
    ∧ (delete_user db uid).orders.all (fun o => o.user_id != uid) = true
    ∧ (delete_user db uid).tokens.all (fun t => t.user_id != uid) = true
    ∧ (delete_user db uid).users.all (fun u => u.1 != uid) = true := by
  refine ⟨?_, ?_, ?_, ?_⟩ <;>
    · rw [List.all_eq_true]
      intro x hx
      simp only [delete_user] at hx
      exact (List.mem_filter.mp hx).2

/-- C7: the data layer guards no status transition: from any current
status, writing any status value is accepted and stored verbatim, and every
declared status is a legal value. -/
theorem order_status_write_unguarded (o : Order) (s0 s1 : OrderStatus) :
    ((o.set_status s0.value).set_status s1.value).status = s1.value
    ∧ (∀ s : String, (o.set_status s).status = s)
    ∧ s1.value ∈ STATUS_CHOICES.map Prod.fst := by
  refine ⟨rfl, fun _ => rfl, ?_⟩
  cases s1 <;> decide

/-- C9: `ConfirmEmailToken.save` generates a new key only when the key is
empty: a token whose key is already set is returned unchanged by a re-save,
whatever fresh key the generator would have offered. -/
theorem token_save_keeps_existing_key (t : ConfirmEmailToken) (k : String)
    (h : t.key ≠ "") : ConfirmEmailToken.save t k = t := by
  unfold ConfirmEmailToken.save
  rw [if_neg h]

/-- Witness for C9 at a concrete token with a non-empty key. -/
theorem token_save_keeps_existing_key_witness :
    ConfirmEmailToken.save { id := 1, user_id := 2, key := "abc123" } "freshzzz"
      = { id := 1, user_id := 2, key := "abc123" } :=
  token_save_keeps_existing_key { id := 1, user_id := 2, key := "abc123" }
    "freshzzz" (by decide)

/-- C2: each of the three declared composite unique constraints is enforced
on insert: a duplicate `(product, shop)`, `(product_info, parameter)` or
`(order, product_info)` pair fails the write with a constraint-violation
error and the table is unchanged, while a non-duplicate insert appends the
row behind the untouched existing rows — never overwriting any of them. -/
theorem unique_constraints_spec
    (pis : List ProductInfo) (pin : ProductInfo)
    (pps : List ProductParameter) (q : ProductParameter)
    (ois : List OrderItem) (r : OrderItem) :
    ((∃ x ∈ pis, x.product_id = pin.product_id ∧ x.shop_id = pin.shop_id) →
        insert_product_info pis pin = .error .uniqueViolation)
    ∧ ((∀ x ∈ pis, ¬(x.product_id = pin.product_id ∧ x.shop_id = pin.shop_id)) →
        insert_product_info pis pin = .ok (pis ++ [pin]))
    ∧ ((∃ x ∈ pps, x.product_info_id = q.product_info_id
          ∧ x.parameter_id = q.parameter_id) →
        insert_product_parameter pps q = .error .uniqueViolation)
    ∧ ((∀ x ∈ pps, ¬(x.product_info_id = q.product_info_id
          ∧ x.parameter_id = q.parameter_id)) →
        insert_product_parameter pps q = .ok (pps ++ [q]))
    ∧ ((∃ x ∈ ois, x.order_id = r.order_id
          ∧ x.product_info_id = r.product_info_id) →
        insert_order_item ois r = .error .uniqueViolation)
    ∧ ((∀ x ∈ ois, ¬(x.order_id = r.order_id
          ∧ x.product_info_id = r.product_info_id)) →
        insert_order_item ois r = .ok (ois ++ [OrderItem.save r])) := by
  refine ⟨?_, ?_, ?_, ?_, ?_, ?_⟩ <;> intro h
  · have hany : pis.any
        (fun x => x.product_id == pin.product_id && x.shop_id == pin.shop_id) = true := by
      rw [List.any_eq_true]
      obtain ⟨x, hx, h1, h2⟩ := h
      exact ⟨x, hx, by simp [h1, h2]⟩
    simp [insert_product_info, hany]
  · have hany : pis.any
        (fun x => x.product_id == pin.product_id && x.shop_id == pin.shop_id) = false := by
      rw [List.any_eq_false]
      intro x hx
      simp only [Bool.and_eq_true, beq_iff_eq]
      exact h x hx
    simp [insert_product_info, hany]
  · have hany : pps.any
        (fun x => x.product_info_id == q.product_info_id
          && x.parameter_id == q.parameter_id) = true := by
      rw [List.any_eq_true]
      obtain ⟨x, hx, h1, h2⟩ := h
      exact ⟨x, hx, by simp [h1, h2]⟩
    simp [insert_product_parameter, hany]
  · have hany : pps.any
        (fun x => x.product_info_id == q.product_info_id
          && x.parameter_id == q.parameter_id) = false := by
      rw [List.any_eq_false]
      intro x hx
      simp only [Bool.and_eq_true, beq_iff_eq]
      exact h x hx
    simp [insert_product_parameter, hany]
  · have hany : ois.any
        (fun x => x.order_id == r.order_id
          && x.product_info_id == r.product_info_id) = true := by
      rw [List.any_eq_true]
      obtain ⟨x, hx, h1, h2⟩ := h
      exact ⟨x, hx, by simp [h1, h2]⟩
    simp [insert_order_item, hany]
  · have hany : ois.any
        (fun x => x.order_id == r.order_id
          && x.product_info_id == r.product_info_id) = false := by
      rw [List.any_eq_false]
      intro x hx
      simp only [Bool.and_eq_true, beq_iff_eq]
      exact h x hx
    simp [insert_order_item, hany]

/-- Witness for C2: a second listing with the same `(product, shop)` pair as
an existing row fails with the constraint violation. -/
theorem unique_constraints_spec_witness :
    insert_product_info
      [{ id := 1, model := "m1", quantity := 5, price := 10, price_rrc := 12,
         product_id := 7, shop_id := 3 }]
      { id := 2, model := "m2", quantity := 6, price := 11, price_rrc := 13,
        product_id := 7, shop_id := 3 }
      = .error .uniqueViolation :=
  (unique_constraints_spec
      [{ id := 1, model := "m1", quantity := 5, price := 10, price_rrc := 12,
         product_id := 7, shop_id := 3 }]
      { id := 2, model := "m2", quantity := 6, price := 11, price_rrc := 13,
        product_id := 7, shop_id := 3 }
      [] { id := 1, product_info_id := 1, parameter_id := 1, value := "v" }
      [] { order_id := 1, product_info_id := 1, quantity := 1, price := 0,
           total_amount := 0 }).1
    ⟨{ id := 1, model := "m1", quantity := 5, price := 10, price_rrc := 12,
       product_id := 7, shop_id := 3 }, by simp, rfl, rfl⟩

/-- C4: every `create_superuser` call either yields a user with
`is_staff=True` and `is_superuser=True`, or fails with an error and creates
no user; in particular an explicit `is_staff=False` or `is_superuser=False`
makes the call fail. -/
theorem create_superuser_flags (db : List User) (email password : String)
    (st su : Option Bool) (ty : Option String) :
    (∀ u db', UserManager.create_superuser db email password st su ty = .ok (u, db') →
        u.is_staff = true ∧ u.is_superuser = true)
    ∧ (st = some false →
        ∃ e, UserManager.create_superuser db email password st su ty = .error e)
    ∧ (su = some false →
        ∃ e, UserManager.create_superuser db email password st su ty = .error e) := by
  refine ⟨?_, ?_, ?_⟩
  · intro u db' h
    unfold UserManager.create_superuser at h
    split at h
    · exact absurd h (by simp)
    split at h
    · exact absurd h (by simp)
    rename_i h1 h2
    have hc := create_user_core_ok _ _ _ _ _ _ _ _ h
    constructor
    · rw [hc.2.1]
      simpa using h1
    · rw [hc.2.2.1]
      simpa using h2
  · intro hst
    subst hst
    exact ⟨.staffFlagNotTrue, by simp [UserManager.create_superuser]⟩
  · intro hsu
    subst hsu
    by_cases hst : st.getD true = true
    · exact ⟨.superuserFlagNotTrue, by simp [UserManager.create_superuser, hst]⟩
    · exact ⟨.staffFlagNotTrue, by simp [UserManager.create_superuser, hst]⟩

/-- Witness for C4: on an empty store, a plain superuser creation succeeds
with both flags true, and an explicit `is_staff=False` fails. -/
theorem create_superuser_flags_witness :
    (({ email := "admin@x.com", password := "pw", is_staff := true,
        is_superuser := true, type := "buyer", organization := none,
        position := none } : User).is_staff = true
      ∧ ({ email := "admin@x.com", password := "pw", is_staff := true,
           is_superuser := true, type := "buyer", organization := none,
           position := none } : User).is_superuser = true)
    ∧ ∃ e, UserManager.create_superuser [] "admin@x.com" "pw" (some false)
        none none = .error e :=
  ⟨(create_superuser_flags [] "admin@x.com" "pw" none none none).1
      { email := "admin@x.com", password := "pw", is_staff := true,
        is_superuser := true, type := "buyer", organization := none,
        position := none }
      [{ email := "admin@x.com", password := "pw", is_staff := true,
         is_superuser := true, type := "buyer", organization := none,
         position := none }]
      (by rfl),
   (create_superuser_flags [] "admin@x.com" "pw" (some false) none none).2.1 rfl⟩

/-- C5: `create_user` with an empty email fails with a validation error and
creates no user; with a non-empty email whose normalized form is not yet
taken, it succeeds and the new record is retrievable by the normalized form
of that email. -/
theorem create_user_email_spec (db : List User) (email password : String)
    (st su : Option Bool) (ty : Option String) :
    (email = "" →
        UserManager.create_user db email password st su ty = .error .emptyEmail)
    ∧ (email ≠ "" →
        (∀ v ∈ db, v.email ≠ normalize_email email) →
        ∃ u db', UserManager.create_user db email password st su ty = .ok (u, db')
          ∧ get_user_by_email db' (normalize_email email) = some u) := by
  constructor
  · intro h
    subst h
    simp [UserManager.create_user, UserManager._create_user]
  · intro hne hfresh
    have hall : ∀ v ∈ db, (fun v => v.email == normalize_email email) v = false := by
      intro v hv
      simp only [beq_eq_false_iff_ne]
      exact hfresh v hv
    have hany : db.any (fun v => v.email == normalize_email email) = false := by
      rw [List.any_eq_false]
      intro v hv
      simp only [beq_iff_eq]
      exact hfresh v hv
    refine ⟨UserManager.build_user (normalize_email email) password
        (some (st.getD false)) (some (su.getD false)) ty,
      db ++ [UserManager.build_user (normalize_email email) password
        (some (st.getD false)) (some (su.getD false)) ty], ?_, ?_⟩
    · simp [UserManager.create_user, UserManager._create_user, hne, hany]
    · unfold get_user_by_email
      rw [find_append_of_all_false _ db _ hall]
      simp [UserManager.build_user]

/-- Witness for C5: creating a user on an empty store with the mixed-case
email "A@Ex.Com" succeeds, and the record is found under the normalized
email. -/
theorem create_user_email_spec_witness :
    ∃ u db', UserManager.create_user [] "A@Ex.Com" "pw" none none none = .ok (u, db')
      ∧ get_user_by_email db' (normalize_email "A@Ex.Com") = some u :=
  (create_user_email_spec [] "A@Ex.Com" "pw" none none none).2
    (by decide) (by intro v hv; exact absurd hv (List.not_mem_nil v))

/-- C10: a user created through `create_user` without explicitly supplied
flags gets `is_staff=False` and `is_superuser=False`, and without an
explicitly supplied type gets the role `"buyer"`. -/
theorem create_user_default_flags (db : List User) (email password : String)
    (u : User) (db' : List User)
    (h : UserManager.create_user db email password none none none = .ok (u, db')) :
    u.is_staff = false ∧ u.is_superuser = false ∧ u.type = "buyer" := by
  unfold UserManager.create_user at h
  have hc := create_user_core_ok _ _ _ _ _ _ _ _ h
  exact ⟨by simpa using hc.2.1, by simpa using hc.2.2.1, by simpa using hc.2.2.2.1⟩

/-- Witness for C10 at a concrete creation on the empty store. -/
theorem create_user_default_flags_witness :
    ({ email := "a@b.c", password := "pw", is_staff := false,
       is_superuser := false, type := "buyer", organization := none,
       position := none } : User).is_staff = false
    ∧ ({ email := "a@b.c", password := "pw", is_staff := false,
         is_superuser := false, type := "buyer", organization := none,
         position := none } : User).is_superuser = false
    ∧ ({ email := "a@b.c", password := "pw", is_staff := false,
         is_superuser := false, type := "buyer", organization := none,
         position := none } : User).type = "buyer" :=
  create_user_default_flags [] "a@b.c" "pw"
    { email := "a@b.c", password := "pw", is_staff := false,
      is_superuser := false, type := "buyer", organization := none,
      position := none }
    [{ email := "a@b.c", password := "pw", is_staff := false,
       is_superuser := false, type := "buyer", organization := none,
       position := none }]
    (by rfl)
